import Mathlib

/-!
Verification of the Bluesss proximity-lock repository.

The repository monitors a Bluetooth device and drives a screen-off/lock
action (and, in one variant, a wake action) from a debounced presence
state machine.  This file gives a shallow embedding of the three monitor
loops the claims are about:

* `src/app.py` — Flask web app: global `monitor_state`, `monitor_loop`,
  `api_start`, `api_stop`; miss threshold `OUT_OF_RANGE_COUNT = 2`,
  plain `time.sleep(3)` between ticks, a single screen-off action guarded
  by `screen_off`.
* `src/main/bluelock_perfect.py` — `PerfectBlueLock.monitor_device`:
  counters `consecutive_misses` / `consecutive_hits`, phase
  `device_in_range`, lock threshold
  `required_misses = max(2, MIN_OUT_OF_RANGE_TIME // SCAN_INTERVAL) = 2`,
  wake threshold hard-coded `2`, actions dispatched via `execute_action`.
* `src/main/sleep_on_disconnect.py` — `main`: counter
  `consecutive_misses`, guard `has_slept`, threshold
  `DISCONNECT_GRACE_CHECKS = 2`, display-off action.

Machine integers do not overflow in any of this code (counters only grow
by 1 per tick), so counters are modelled as `Nat`; RSSI readings as `Int`.
-/

/-- Outcome of one probe of the target device, as in §4.1 of the spec:
a detection with a signal reading, a clean "not found", or a failure of
the probe mechanism itself (scan exception, PowerShell failure, non-zero
exit code). -/
inductive ProbeResult where
  | present (rssi : Int)
  | absent
  | probeError
deriving DecidableEq, Repr

/-- Debounced presence judgment. -/
inductive Phase where
  | InRange
  | OutOfRange
deriving DecidableEq, Repr

/-- System action dispatched on a phase transition. -/
inductive SysAction where
  | lock
  | wake
deriving DecidableEq, Repr

/-- Opposite action of a lock/wake action. -/
def SysAction.opposite : SysAction → SysAction
  | .lock => .wake
  | .wake => .lock

/-! ### src/app.py -/

/-- app.py line 117: `OUT_OF_RANGE_COUNT = 2`. -/
def OUT_OF_RANGE_COUNT : Nat := 2

/-- Global `monitor_state` dictionary of app.py (lines 18–25).
`last_check` is the `time.strftime` string of the last tick. -/
structure MonitorState where
  is_monitoring : Bool
  device_name : Option String
  device_id : Option String
  is_connected : Bool
  last_check : Option String
  screen_off : Bool
deriving DecidableEq, Repr

/-- Initial global state of app.py (lines 18–25). -/
def monitorStateInit : MonitorState :=
  { is_monitoring := false, device_name := none, device_id := none,
    is_connected := false, last_check := none, screen_off := false }

/-- Per-loop state of `monitor_loop` in app.py: the local `miss_count`
together with the `is_connected` / `screen_off` fields of the global
state that the loop body writes. -/
structure AppState where
  miss_count : Nat
  screen_off : Bool
  is_connected : Bool
deriving DecidableEq, Repr

/-- State of `monitor_loop` at loop entry: `miss_count = 0` (line 116);
`screen_off` was set `False` and `is_connected` seeded by `api_start`
(lines 181–182). -/
def appInit (seed_connected : Bool) : AppState :=
  { miss_count := 0, screen_off := false, is_connected := seed_connected }

/-- One iteration of the body of `monitor_loop` (app.py lines 120–132),
given the result of `is_device_connected`.  Returns the successor state
and whether `turn_off_screen()` was invoked this tick. -/
def appTick (s : AppState) (connected : Bool) : AppState × Bool :=
  if connected then
    ({ miss_count := 0, screen_off := false, is_connected := true }, false)
  else
    let m := s.miss_count + 1
    if m ≥ OUT_OF_RANGE_COUNT ∧ ¬ s.screen_off then
      ({ miss_count := m, screen_off := true, is_connected := false }, true)
    else
      ({ miss_count := m, screen_off := s.screen_off, is_connected := false }, false)

/-- State of `monitor_loop` after `n` ticks, the tick-`k` probe result
being `probe k`. -/
def appRun (seed : Bool) (probe : Nat → Bool) : Nat → AppState
  | 0 => appInit seed
  | n + 1 => (appTick (appRun seed probe n) (probe n)).1

/-- Whether `turn_off_screen()` is invoked at tick `n` of `monitor_loop`. -/
def appFired (seed : Bool) (probe : Nat → Bool) (n : Nat) : Bool :=
  (appTick (appRun seed probe n) (probe n)).2

/-- Phase reading of the app.py loop: `screen_off = true` is the
out-of-range judgment. -/
def appPhase (s : AppState) : Phase :=
  if s.screen_off then .OutOfRange else .InRange

/-- Phase trajectory of the first `n` ticks of `monitor_loop`. -/
def appPhases (seed : Bool) (probe : Nat → Bool) (n : Nat) : List Phase :=
  (List.range n).map (fun i => appPhase (appRun seed probe (i + 1)))

/-- Sequence of action invocations made by the first `n` ticks of
`monitor_loop`; app.py only ever invokes the screen-off (lock-side)
action. -/
def appInvocations (seed : Bool) (probe : Nat → Bool) (n : Nat) : List SysAction :=
  (List.range n).filterMap
    (fun i => if appFired seed probe i then some SysAction.lock else none)

/-- Handler `api_stop` of app.py (lines 190–200): sets the stop flag,
clears `is_monitoring`, `device_name`, `device_id`, and touches nothing
else in `monitor_state`. -/
def api_stop (s : MonitorState) : MonitorState :=
  { s with is_monitoring := false, device_name := none, device_id := none }

/-- Handler `api_start` of app.py (lines 159–187).  The request carries
`device_name` and `device_id`; `if not device_id:` rejects a missing or
empty id with a 400 error before the monitor thread is created.
Otherwise the global state is re-seeded (`is_connected` from one probe
of the device, `screen_off := False`) and the thread is started; the
`Bool` in the result records that the monitor thread was started. -/
def api_start (s : MonitorState) (device_name device_id : Option String)
    (seed_connected : Bool) : Except String (MonitorState × Bool) :=
  if device_id = none ∨ device_id = some "" then
    .error "No device selected"
  else
    .ok ({ s with is_monitoring := true,
                  device_name := device_name,
                  device_id := device_id,
                  is_connected := seed_connected,
                  screen_off := false }, true)

/-- MonitorConfig of spec §3 (durations in tenths of a second, to stay
in integers). -/
structure MonitorConfig where
  targetId : String
  pollIntervalTenths : Nat
  missThreshold : Nat
  hitThreshold : Nat
deriving DecidableEq, Repr

/-- Modelled from the spec (§6 `start`): a configuration is rejected
with `ConfigError` iff `targetId` is empty, `pollInterval ≤ 0`, or
either threshold is `< 1`. -/
def specConfigValid (c : MonitorConfig) : Bool :=
  c.targetId ≠ "" && c.pollIntervalTenths > 0 &&
    c.missThreshold ≥ 1 && c.hitThreshold ≥ 1

/-- Effective configuration of an app.py monitoring session: the target
id comes from the request (a missing id reads as the empty string), the
poll interval is the constant `time.sleep(3)` (line 134), the miss
threshold is `OUT_OF_RANGE_COUNT = 2`, and a single connected probe
clears `screen_off` (line 127), i.e. the effective hit threshold is 1. -/
def appEffectiveConfig (device_id : Option String) : MonitorConfig :=
  { targetId := device_id.getD "", pollIntervalTenths := 30,
    missThreshold := OUT_OF_RANGE_COUNT, hitThreshold := 1 }

/-! ### src/main/bluelock_perfect.py -/

/-- settings.py: `SCAN_INTERVAL = 2.5` seconds, kept in tenths of a
second to stay in integers. -/
def SCAN_INTERVAL_TENTHS : Nat := 25

/-- settings.py: `MIN_OUT_OF_RANGE_TIME = 6` seconds. -/
def MIN_OUT_OF_RANGE_TIME : Nat := 6

/-- settings.py: `ENABLE_LOCK = True`. -/
def ENABLE_LOCK : Bool := true

/-- settings.py: `ENABLE_WAKE = True`. -/
def ENABLE_WAKE : Bool := true

/-- bluelock_perfect.py line 283:
`required_misses = max(2, settings.MIN_OUT_OF_RANGE_TIME // settings.SCAN_INTERVAL)`.
Python floor division `6 // 2.5 = 2.0`, matched here by
`6 * 10 / 25 = 2` on naturals, so `required_misses = 2`. -/
def required_misses : Nat :=
  max 2 (MIN_OUT_OF_RANGE_TIME * 10 / SCAN_INTERVAL_TENTHS)

/-- Outcome of a Python call that may raise: the normal return value, or
an exception that a `try`/`except` around the call will catch. -/
inductive PyResult (α : Type) where
  | ok (a : α)
  | raised
deriving DecidableEq, Repr

/-- Result of `PerfectBlueLock.enhanced_scan` (lines 150–188): the whole
body is wrapped in `try ... except Exception: pass` followed by
`return None`, so a scan that raises returns `None` exactly like a scan
that did not find the device.  `raw` is the outcome of the body before
the handler. -/
def enhanced_scan (raw : PyResult (Option Int)) : Option Int :=
  match raw with
  | .ok r => r
  | .raised => none

/-- Classification of a probe outcome into the value `enhanced_scan`
hands the monitor loop: a detection yields its RSSI, while a clean miss
and a probe failure both yield `None` (lines 185–188). -/
def enhanced_scan_result : ProbeResult → Option Int
  | .present rssi => some rssi
  | .absent => none
  | .probeError => none

/-- Loop state of `PerfectBlueLock.monitor_device` (lines 224–227
declare the counters; `device_in_range` comes from `__init__`,
line 20). -/
structure PerfectState where
  device_in_range : Bool
  consecutive_misses : Nat
  consecutive_hits : Nat
  last_rssi : Option Int
deriving DecidableEq, Repr

/-- State at loop entry: `__init__` (line 20) sets
`device_in_range = False` unconditionally — no probe of the device is
made before the loop — and lines 224–226 zero the counters. -/
def perfectInit : PerfectState :=
  { device_in_range := false, consecutive_misses := 0,
    consecutive_hits := 0, last_rssi := none }

/-- One iteration of the body of `monitor_device` (lines 230–288), given
the value `enhanced_scan` returned for this tick.  Returns the successor
state and the action passed to `execute_action`, if any: `wake` when a
detection brings `consecutive_hits` to the hard-coded threshold 2 while
out of range (lines 268–271), `lock` when a miss brings
`consecutive_misses` to `required_misses` while in range
(lines 283–287). -/
def perfectTick (s : PerfectState) (scan : Option Int) :
    PerfectState × Option SysAction :=
  match scan with
  | some rssi =>
    let s' : PerfectState :=
      { s with consecutive_misses := 0,
               consecutive_hits := s.consecutive_hits + 1,
               last_rssi := some rssi }
    if ¬ s.device_in_range ∧ s'.consecutive_hits ≥ 2 then
      ({ s' with device_in_range := true }, some .wake)
    else
      (s', none)
  | none =>
    let s' : PerfectState :=
      { s with consecutive_hits := 0,
               consecutive_misses := s.consecutive_misses + 1 }
    if s.device_in_range ∧ s'.consecutive_misses ≥ required_misses then
      ({ s' with device_in_range := false }, some .lock)
    else
      (s', none)

/-- State of `monitor_device` after `n` ticks starting from `s₀`, the
tick-`k` scan result being `probe k`. -/
def perfectRunFrom (s₀ : PerfectState) (probe : Nat → Option Int) : Nat → PerfectState
  | 0 => s₀
  | n + 1 => (perfectTick (perfectRunFrom s₀ probe n) (probe n)).1

/-- State of `monitor_device` after `n` ticks from the real initial
state. -/
def perfectRun (probe : Nat → Option Int) : Nat → PerfectState :=
  perfectRunFrom perfectInit probe

/-- Action dispatched to `execute_action` at tick `n`, starting from
`s₀`. -/
def perfectActionFrom (s₀ : PerfectState) (probe : Nat → Option Int) (n : Nat) :
    Option SysAction :=
  (perfectTick (perfectRunFrom s₀ probe n) (probe n)).2

/-- Action dispatched to `execute_action` at tick `n` of a run from the
real initial state. -/
def perfectAction (probe : Nat → Option Int) (n : Nat) : Option SysAction :=
  perfectActionFrom perfectInit probe n

/-- Phase reading of the bluelock_perfect loop. -/
def perfectPhase (s : PerfectState) : Phase :=
  if s.device_in_range then .InRange else .OutOfRange

/-- Phase trajectory of the first `n` ticks of `monitor_device` from
`s₀`. -/
def perfectPhasesFrom (s₀ : PerfectState) (probe : Nat → Option Int) (n : Nat) :
    List Phase :=
  (List.range n).map (fun i => perfectPhase (perfectRunFrom s₀ probe (i + 1)))

/-- One tick of `monitor_device` with the exception behaviour explicit:
`rawScan` is the outcome of the scan body before the `except` clause of
`enhanced_scan` (lines 185–188), `rawAction` the outcome of the
`subprocess.run` call inside `execute_action`, whose
`try ... except Exception: pass` (lines 192–203) swallows any failure.
The tick is total and its result does not depend on `rawAction`. -/
def perfectTickRaw (s : PerfectState) (rawScan : PyResult (Option Int))
    (rawAction : PyResult Unit) : PerfectState × Option SysAction :=
  perfectTick s (enhanced_scan rawScan)

/-- States traversed by `monitor_device` over a finite list of raw
(scan, action) outcomes; one entry per processed tick. -/
def perfectFoldRaw (s : PerfectState) :
    List (PyResult (Option Int) × PyResult Unit) → List PerfectState
  | [] => []
  | (rs, ra) :: rest =>
    let s' := (perfectTickRaw s rs ra).1
    s' :: perfectFoldRaw s' rest

/-- Full state trajectory of `monitor_device` over a list of probe
outcomes, each classified by `enhanced_scan_result`. -/
def perfectStates (l : List ProbeResult) : List PerfectState :=
  perfectFoldRaw perfectInit (l.map (fun p => (.ok (enhanced_scan_result p), .ok ())))

/-! ### src/main/sleep_on_disconnect.py -/

/-- sleep_on_disconnect.py line 27: `DISCONNECT_GRACE_CHECKS = 2`. -/
def DISCONNECT_GRACE_CHECKS : Nat := 2

/-- Result of `is_device_connected` in sleep_on_disconnect.py
(lines 91–102): a non-zero PowerShell exit code returns `False`, exactly
like a device whose status is not `"OK"`; a connected device returns
`True`. -/
def is_device_connected : ProbeResult → Bool
  | .present _ => true
  | .absent => false
  | .probeError => false

/-- Loop state of `main` in sleep_on_disconnect.py (lines 186–187). -/
structure SleepState where
  consecutive_misses : Nat
  has_slept : Bool
deriving DecidableEq, Repr

/-- State at loop entry (lines 186–187). -/
def sleepInit : SleepState := { consecutive_misses := 0, has_slept := false }

/-- One iteration of the body of `main` (lines 192–208), given the
result of `is_device_connected`.  Returns the successor state and
whether the guarded branch ran, i.e. whether the display-off action
(`turn_off_display`, with `FULL_SYSTEM_SLEEP = False` and outside test
mode) was invoked this tick. -/
def sleepTick (s : SleepState) (connected : Bool) : SleepState × Bool :=
  if connected then
    ({ consecutive_misses := 0, has_slept := false }, false)
  else
    let m := s.consecutive_misses + 1
    if m ≥ DISCONNECT_GRACE_CHECKS ∧ ¬ s.has_slept then
      ({ consecutive_misses := m, has_slept := true }, true)
    else
      ({ consecutive_misses := m, has_slept := s.has_slept }, false)

/-- State of the sleep_on_disconnect loop after `n` ticks. -/
def sleepRun (probe : Nat → Bool) : Nat → SleepState
  | 0 => sleepInit
  | n + 1 => (sleepTick (sleepRun probe n) (probe n)).1

/-- Whether the display-off action is invoked at tick `n` of the
sleep_on_disconnect loop. -/
def sleepFired (probe : Nat → Bool) (n : Nat) : Bool :=
  (sleepTick (sleepRun probe n) (probe n)).2

/-- States traversed by the sleep_on_disconnect loop over a finite list
of `is_device_connected` results; one entry per processed tick. -/
def sleepFold (s : SleepState) : List Bool → List SleepState
  | [] => []
  | c :: rest =>
    let s' := (sleepTick s c).1
    s' :: sleepFold s' rest

/-- Full state trajectory of the sleep_on_disconnect loop over a list of
probe outcomes, each classified by `is_device_connected`. -/
def sleepStates (l : List ProbeResult) : List SleepState :=
  sleepFold sleepInit (l.map is_device_connected)

/-! ### Auxiliary notions -/

/-- Length of the unbroken run of misses immediately preceding tick `n`:
`trailingMisses miss n` counts how many consecutive ticks
`n-1, n-2, ...` satisfy `miss`.  This is exactly the value the
consecutive-miss counters of the loops track. -/
def trailingMisses (miss : Nat → Bool) : Nat → Nat
  | 0 => 0
  | n + 1 => if miss n then trailingMisses miss n + 1 else 0

/-- Timing model of the scheduling of `monitor_loop` in app.py: the stop
flag `stop_monitoring` is read once at the top of each iteration
(line 119), and the iteration ends with a plain `time.sleep` of the poll
interval (line 134) that always runs to completion — `time.sleep` is not
interruptible, and the flag is only a variable read at the next loop
head.  With the tick body's own duration abstracted to zero, iteration
`n`'s flag check happens at time `n * pollInterval`; a stop requested at
time `stopAt` therefore takes effect at the first check at or after
`stopAt`.  Times are in tenths of a second. -/
def appLoopExitTime (pollInterval stopAt : Nat) : Nat :=
  pollInterval * ((stopAt + pollInterval - 1) / pollInterval)

/-- Latency between a stop request and loop exit under the timing model
of `appLoopExitTime`. -/
def appStopLatency (pollInterval stopAt : Nat) : Nat :=
  appLoopExitTime pollInterval stopAt - stopAt

/-- Worked example of spec §8 as connectivity booleans for the
app.py / sleep_on_disconnect loops: Present, Absent, Absent, Present,
then Present forever. -/
def exProbe : Nat → Bool := fun n => [true, false, false, true].getD n true

/-- Worked example of spec §8 as scan results for bluelock_perfect. -/
def exScan : Nat → Option Int :=
  fun n => [some (-50), none, none, some (-50)].getD n (some (-50))

/-- Probe sequence Absent, Absent, Present, Absent, Absent, then
Present forever. -/
def exProbe2 : Nat → Bool := fun n => [false, false, true, false, false].getD n true

/-- Device present at every tick. -/
def alwaysPresent : Nat → Option Int := fun _ => some (-50)

/-- Scan results: two hits, two misses, two hits, two misses, then
misses forever. -/
def exScan2 : Nat → Option Int :=
  fun n =>
    [some (-50), some (-50), none, none,
     some (-50), some (-50), none, none].getD n none

/-- Start state for the worked example of spec §8: the monitor already
judges the device in range, counters fresh. -/
def inRangeStart : PerfectState :=
  { device_in_range := true, consecutive_misses := 0,
    consecutive_hits := 0, last_rssi := none }

/-- Per-tick fire flags of the first `n` ticks of `monitor_loop`. -/
def appFiredList (seed : Bool) (probe : Nat → Bool) (n : Nat) : List Bool :=
  (List.range n).map (appFired seed probe)

/-- Per-tick actions of the first `n` ticks of `monitor_device` from
`s₀`. -/
def perfectActionsFrom (s₀ : PerfectState) (probe : Nat → Option Int) (n : Nat) :
    List (Option SysAction) :=
  (List.range n).map (perfectActionFrom s₀ probe)

/-! ### Invariants of the app.py loop -/

/-- Normal form of a connected tick of `monitor_loop`. -/
lemma appTick_true (s : AppState) :
    appTick s true =
      ({ miss_count := 0, screen_off := false, is_connected := true }, false) := rfl

/-- Normal form of a miss tick of `monitor_loop`. -/
lemma appTick_false (s : AppState) :
    appTick s false =
      if OUT_OF_RANGE_COUNT ≤ s.miss_count + 1 ∧ s.screen_off = false then
        ({ miss_count := s.miss_count + 1, screen_off := true,
           is_connected := false }, true)
      else
        ({ miss_count := s.miss_count + 1, screen_off := s.screen_off,
           is_connected := false }, false) := by
  obtain ⟨m, so, ic⟩ := s
  cases so <;> simp [appTick]

/-- miss_count of `monitor_loop` equals the length of the trailing run
of misses. -/
lemma appRun_miss_count (seed : Bool) (probe : Nat → Bool) (n : Nat) :
    (appRun seed probe n).miss_count = trailingMisses (fun k => !probe k) n := by
  induction n with
  | zero => simp [appRun, appInit, trailingMisses]
  | succ n ih =>
    show (appTick (appRun seed probe n) (probe n)).1.miss_count = _
    cases hp : probe n with
    | true => simp [appTick_true, trailingMisses, hp]
    | false =>
      rw [appTick_false]
      split_ifs with h <;> simp [trailingMisses, hp, ih]

/-- screen_off of `monitor_loop` holds exactly when the trailing run of
misses has reached `OUT_OF_RANGE_COUNT`. -/
lemma appRun_screen_off (seed : Bool) (probe : Nat → Bool) (n : Nat) :
    (appRun seed probe n).screen_off = true ↔
      OUT_OF_RANGE_COUNT ≤ trailingMisses (fun k => !probe k) n := by
  induction n with
  | zero => simp [appRun, appInit, trailingMisses, OUT_OF_RANGE_COUNT]
  | succ n ih =>
    show (appTick (appRun seed probe n) (probe n)).1.screen_off = true ↔ _
    cases hp : probe n with
    | true => simp [appTick_true, trailingMisses, hp, OUT_OF_RANGE_COUNT]
    | false =>
      have hmc := appRun_miss_count seed probe n
      rw [appTick_false]
      have ht : trailingMisses (fun k => !probe k) (n + 1)
          = trailingMisses (fun k => !probe k) n + 1 := by
        simp [trailingMisses, hp]
      rw [ht]
      split_ifs with h
      · obtain ⟨h1, h2⟩ := h
        simp only [true_iff]
        omega
      · rcases Decidable.not_and_iff_or_not.mp h with h' | h'
        · simp only [ih]
          omega
        · have hso : (appRun seed probe n).screen_off = true := by
            cases hx : (appRun seed probe n).screen_off
            · exact absurd hx h'
            · rfl
          have hge := ih.mp hso
          simp only [hso, true_iff]
          omega

/-- `turn_off_screen` is invoked at tick `n` of `monitor_loop` exactly
when the trailing run of misses reaches `OUT_OF_RANGE_COUNT` at that
tick. -/
lemma appFired_iff (seed : Bool) (probe : Nat → Bool) (n : Nat) :
    appFired seed probe n = true ↔
      trailingMisses (fun k => !probe k) (n + 1) = OUT_OF_RANGE_COUNT := by
  unfold appFired
  cases hp : probe n with
  | true => simp [appTick_true, trailingMisses, hp, OUT_OF_RANGE_COUNT]
  | false =>
    have hmc := appRun_miss_count seed probe n
    have hscr := appRun_screen_off seed probe n
    have ht : trailingMisses (fun k => !probe k) (n + 1)
        = trailingMisses (fun k => !probe k) n + 1 := by
      simp [trailingMisses, hp]
    rw [appTick_false, ht]
    split_ifs with h
    · simp only [true_iff]
      rcases h with ⟨h1, h2⟩
      have : ¬ OUT_OF_RANGE_COUNT ≤ trailingMisses (fun k => !probe k) n := by
        intro hc
        rw [← hscr] at hc
        rw [hc] at h2
        cases h2
      omega
    · simp only [Bool.false_eq_true, false_iff]
      rcases Decidable.not_and_iff_or_not.mp h with h' | h'
      · omega
      · have hso : (appRun seed probe n).screen_off = true := by
          cases hx : (appRun seed probe n).screen_off
          · exact absurd hx h'
          · rfl
        have := hscr.mp hso
        omega

/-! ### Invariants of the sleep_on_disconnect loop -/

/-- Normal form of a connected tick of the sleep_on_disconnect loop. -/
lemma sleepTick_true (s : SleepState) :
    sleepTick s true = ({ consecutive_misses := 0, has_slept := false }, false) := rfl

/-- Normal form of a miss tick of the sleep_on_disconnect loop. -/
lemma sleepTick_false (s : SleepState) :
    sleepTick s false =
      if DISCONNECT_GRACE_CHECKS ≤ s.consecutive_misses + 1 ∧ s.has_slept = false then
        ({ consecutive_misses := s.consecutive_misses + 1, has_slept := true }, true)
      else
        ({ consecutive_misses := s.consecutive_misses + 1,
           has_slept := s.has_slept }, false) := by
  obtain ⟨m, hs⟩ := s
  cases hs <;> simp [sleepTick]

/-- consecutive_misses of the sleep_on_disconnect loop equals the
length of the trailing run of misses. -/
lemma sleepRun_miss_count (probe : Nat → Bool) (n : Nat) :
    (sleepRun probe n).consecutive_misses = trailingMisses (fun k => !probe k) n := by
  induction n with
  | zero => simp [sleepRun, sleepInit, trailingMisses]
  | succ n ih =>
    show (sleepTick (sleepRun probe n) (probe n)).1.consecutive_misses = _
    cases hp : probe n with
    | true => simp [sleepTick_true, trailingMisses, hp]
    | false =>
      rw [sleepTick_false]
      split_ifs with h <;> simp [trailingMisses, hp, ih]

/-- has_slept of the sleep_on_disconnect loop holds exactly when the
trailing run of misses has reached `DISCONNECT_GRACE_CHECKS`. -/
lemma sleepRun_has_slept (probe : Nat → Bool) (n : Nat) :
    (sleepRun probe n).has_slept = true ↔
      DISCONNECT_GRACE_CHECKS ≤ trailingMisses (fun k => !probe k) n := by
  induction n with
  | zero => simp [sleepRun, sleepInit, trailingMisses, DISCONNECT_GRACE_CHECKS]
  | succ n ih =>
    show (sleepTick (sleepRun probe n) (probe n)).1.has_slept = true ↔ _
    cases hp : probe n with
    | true => simp [sleepTick_true, trailingMisses, hp, DISCONNECT_GRACE_CHECKS]
    | false =>
      have hmc := sleepRun_miss_count probe n
      rw [sleepTick_false]
      have ht : trailingMisses (fun k => !probe k) (n + 1)
          = trailingMisses (fun k => !probe k) n + 1 := by
        simp [trailingMisses, hp]
      rw [ht]
      split_ifs with h
      · obtain ⟨h1, h2⟩ := h
        simp only [true_iff]
        omega
      · rcases Decidable.not_and_iff_or_not.mp h with h' | h'
        · simp only [ih]
          omega
        · have hso : (sleepRun probe n).has_slept = true := by
            cases hx : (sleepRun probe n).has_slept
            · exact absurd hx h'
            · rfl
          have hge := ih.mp hso
          simp only [hso, true_iff]
          omega

/-- The display-off action is invoked at tick `n` of the
sleep_on_disconnect loop exactly when the trailing run of misses reaches
`DISCONNECT_GRACE_CHECKS` at that tick. -/
lemma sleepFired_iff (probe : Nat → Bool) (n : Nat) :
    sleepFired probe n = true ↔
      trailingMisses (fun k => !probe k) (n + 1) = DISCONNECT_GRACE_CHECKS := by
  unfold sleepFired
  cases hp : probe n with
  | true => simp [sleepTick_true, trailingMisses, hp, DISCONNECT_GRACE_CHECKS]
  | false =>
    have hmc := sleepRun_miss_count probe n
    have hscr := sleepRun_has_slept probe n
    have ht : trailingMisses (fun k => !probe k) (n + 1)
        = trailingMisses (fun k => !probe k) n + 1 := by
      simp [trailingMisses, hp]
    rw [sleepTick_false, ht]
    split_ifs with h
    · simp only [true_iff]
      rcases h with ⟨h1, h2⟩
      have : ¬ DISCONNECT_GRACE_CHECKS ≤ trailingMisses (fun k => !probe k) n := by
        intro hc
        rw [← hscr] at hc
        rw [hc] at h2
        cases h2
      omega
    · simp only [Bool.false_eq_true, false_iff]
      rcases Decidable.not_and_iff_or_not.mp h with h' | h'
      · omega
      · have hso : (sleepRun probe n).has_slept = true := by
          cases hx : (sleepRun probe n).has_slept
          · exact absurd hx h'
          · rfl
        have := hscr.mp hso
        omega

/-- Over an unbroken run of misses the trailing-miss count grows by one
per tick. -/
lemma trailingMisses_run (miss : Nat → Bool) (i : Nat) :
    ∀ j, i ≤ j → (∀ t, i ≤ t → t < j → miss t = true) →
      trailingMisses miss j = trailingMisses miss i + (j - i) := by
  intro j
  induction j with
  | zero =>
    intro hij _
    interval_cases i
    simp
  | succ j ihj =>
    intro hij hall
    rcases Nat.eq_or_lt_of_le hij with rfl | hlt
    · simp
    · have hij' : i ≤ j := Nat.lt_succ_iff.mp hlt
      have hmj : miss j = true := hall j hij' (Nat.lt_succ_self j)
      have := ihj hij' (fun t ht1 ht2 => hall t ht1 (Nat.lt_succ_of_lt ht2))
      simp only [trailingMisses, hmj, if_true]
      omega

/-! ### Invariants of the bluelock_perfect loop -/

/-- Normal form of a detection tick of `monitor_device`. -/
lemma perfectTick_some (s : PerfectState) (rssi : Int) :
    perfectTick s (some rssi) =
      if s.device_in_range = false ∧ 2 ≤ s.consecutive_hits + 1 then
        ({ device_in_range := true, consecutive_misses := 0,
           consecutive_hits := s.consecutive_hits + 1,
           last_rssi := some rssi }, some .wake)
      else
        ({ device_in_range := s.device_in_range, consecutive_misses := 0,
           consecutive_hits := s.consecutive_hits + 1,
           last_rssi := some rssi }, none) := by
  obtain ⟨ir, m, h, lr⟩ := s
  cases ir <;> simp [perfectTick]

/-- Normal form of a miss tick of `monitor_device`. -/
lemma perfectTick_none (s : PerfectState) :
    perfectTick s none =
      if s.device_in_range = true ∧ required_misses ≤ s.consecutive_misses + 1 then
        ({ device_in_range := false,
           consecutive_misses := s.consecutive_misses + 1,
           consecutive_hits := 0, last_rssi := s.last_rssi }, some .lock)
      else
        ({ device_in_range := s.device_in_range,
           consecutive_misses := s.consecutive_misses + 1,
           consecutive_hits := 0, last_rssi := s.last_rssi }, none) := by
  obtain ⟨ir, m, h, lr⟩ := s
  cases ir <;> simp [perfectTick]

/-- consecutive_misses of `monitor_device` equals the length of the
trailing run of misses. -/
lemma perfectRun_miss_count (probe : Nat → Option Int) (n : Nat) :
    (perfectRun probe n).consecutive_misses =
      trailingMisses (fun k => (probe k).isNone) n := by
  induction n with
  | zero => simp [perfectRun, perfectRunFrom, perfectInit, trailingMisses]
  | succ n ih =>
    show (perfectTick (perfectRun probe n) (probe n)).1.consecutive_misses = _
    cases hp : probe n with
    | some rssi =>
      rw [perfectTick_some]
      split_ifs with h <;> simp [trailingMisses, hp]
    | none =>
      rw [perfectTick_none]
      split_ifs with h <;> simp [trailingMisses, hp, ih]

/-- While `monitor_device` judges the device in range, the miss counter
is strictly below the lock threshold (on runs from the real initial
state). -/
lemma perfectRun_inrange_lt (probe : Nat → Option Int) (n : Nat) :
    (perfectRun probe n).device_in_range = true →
      (perfectRun probe n).consecutive_misses < required_misses := by
  have hreq : 2 ≤ required_misses := le_max_left _ _
  induction n with
  | zero => simp [perfectRun, perfectRunFrom, perfectInit]
  | succ n ih =>
    show (perfectTick (perfectRun probe n) (probe n)).1.device_in_range = true →
      (perfectTick (perfectRun probe n) (probe n)).1.consecutive_misses < _
    cases hp : probe n with
    | some rssi =>
      rw [perfectTick_some]
      split_ifs with h <;> (intro _; simp; omega)
    | none =>
      rw [perfectTick_none]
      split_ifs with h
      · intro hc
        simp at hc
      · intro hc
        simp at hc ⊢
        rcases Decidable.not_and_iff_or_not.mp h with h' | h'
        · exact absurd hc h'
        · omega

/-- A `lock` dispatch happens only on an InRange → OutOfRange flip. -/
lemma perfectAction_lock_pre (s₀ : PerfectState) (probe : Nat → Option Int) (n : Nat)
    (h : perfectActionFrom s₀ probe n = some SysAction.lock) :
    (perfectRunFrom s₀ probe n).device_in_range = true ∧
      (perfectRunFrom s₀ probe (n + 1)).device_in_range = false := by
  unfold perfectActionFrom at h
  show _ ∧ (perfectTick (perfectRunFrom s₀ probe n) (probe n)).1.device_in_range = false
  cases hp : probe n with
  | some rssi =>
    rw [hp, perfectTick_some] at h
    split_ifs at h <;> simp at h
  | none =>
    rw [hp, perfectTick_none] at h
    split_ifs at h with hc
    exact ⟨hc.1, by rw [perfectTick_none, if_pos hc]⟩

/-- A `wake` dispatch happens only on an OutOfRange → InRange flip. -/
lemma perfectAction_wake_pre (s₀ : PerfectState) (probe : Nat → Option Int) (n : Nat)
    (h : perfectActionFrom s₀ probe n = some SysAction.wake) :
    (perfectRunFrom s₀ probe n).device_in_range = false ∧
      (perfectRunFrom s₀ probe (n + 1)).device_in_range = true := by
  unfold perfectActionFrom at h
  show _ ∧ (perfectTick (perfectRunFrom s₀ probe n) (probe n)).1.device_in_range = true
  cases hp : probe n with
  | some rssi =>
    rw [hp, perfectTick_some] at h
    split_ifs at h with hc
    exact ⟨hc.1, by rw [perfectTick_some, if_pos hc]⟩
  | none =>
    rw [hp, perfectTick_none] at h
    split_ifs at h <;> simp at h

/-- Without an action dispatch the phase of `monitor_device` does not
change. -/
lemma perfectAction_none_keep (s₀ : PerfectState) (probe : Nat → Option Int) (n : Nat)
    (h : perfectActionFrom s₀ probe n = none) :
    (perfectRunFrom s₀ probe (n + 1)).device_in_range =
      (perfectRunFrom s₀ probe n).device_in_range := by
  unfold perfectActionFrom at h
  show (perfectTick (perfectRunFrom s₀ probe n) (probe n)).1.device_in_range = _
  cases hp : probe n with
  | some rssi =>
    rw [hp, perfectTick_some] at h
    split_ifs at h with hc
    rw [perfectTick_some, if_neg hc]
  | none =>
    rw [hp, perfectTick_none] at h
    split_ifs at h with hc
    rw [perfectTick_none, if_neg hc]

/-- Between an OutOfRange reading and a later InRange reading there is a
`wake` dispatch. -/
lemma perfect_wake_between (s₀ : PerfectState) (probe : Nat → Option Int) :
    ∀ j i, i ≤ j →
      (perfectRunFrom s₀ probe i).device_in_range = false →
      (perfectRunFrom s₀ probe j).device_in_range = true →
      ∃ k, i ≤ k ∧ k < j ∧ perfectActionFrom s₀ probe k = some SysAction.wake := by
  intro j
  induction j with
  | zero =>
    intro i hij h0 h1
    interval_cases i
    rw [h0] at h1
    cases h1
  | succ j ihj =>
    intro i hij h0 h1
    rcases Nat.eq_or_lt_of_le hij with rfl | hlt
    · rw [h0] at h1
      cases h1
    · have hij' : i ≤ j := Nat.lt_succ_iff.mp hlt
      cases hj : (perfectRunFrom s₀ probe j).device_in_range with
      | true =>
        obtain ⟨k, hk1, hk2, hk3⟩ := ihj i hij' h0 hj
        exact ⟨k, hk1, Nat.lt_succ_of_lt hk2, hk3⟩
      | false =>
        cases ha : perfectActionFrom s₀ probe j with
        | none =>
          rw [perfectAction_none_keep s₀ probe j ha, hj] at h1
          cases h1
        | some a =>
          cases a with
          | lock =>
            have := (perfectAction_lock_pre s₀ probe j ha).1
            rw [hj] at this
            cases this
          | wake => exact ⟨j, hij', Nat.lt_succ_self j, ha⟩

/-- Between an InRange reading and a later OutOfRange reading there is a
`lock` dispatch. -/
lemma perfect_lock_between (s₀ : PerfectState) (probe : Nat → Option Int) :
    ∀ j i, i ≤ j →
      (perfectRunFrom s₀ probe i).device_in_range = true →
      (perfectRunFrom s₀ probe j).device_in_range = false →
      ∃ k, i ≤ k ∧ k < j ∧ perfectActionFrom s₀ probe k = some SysAction.lock := by
  intro j
  induction j with
  | zero =>
    intro i hij h0 h1
    interval_cases i
    rw [h0] at h1
    cases h1
  | succ j ihj =>
    intro i hij h0 h1
    rcases Nat.eq_or_lt_of_le hij with rfl | hlt
    · rw [h0] at h1
      cases h1
    · have hij' : i ≤ j := Nat.lt_succ_iff.mp hlt
      cases hj : (perfectRunFrom s₀ probe j).device_in_range with
      | false =>
        obtain ⟨k, hk1, hk2, hk3⟩ := ihj i hij' h0 hj
        exact ⟨k, hk1, Nat.lt_succ_of_lt hk2, hk3⟩
      | true =>
        cases ha : perfectActionFrom s₀ probe j with
        | none =>
          rw [perfectAction_none_keep s₀ probe j ha, hj] at h1
          cases h1
        | some a =>
          cases a with
          | wake =>
            have := (perfectAction_wake_pre s₀ probe j ha).1
            rw [hj] at this
            cases this
          | lock => exact ⟨j, hij', Nat.lt_succ_self j, ha⟩

/-- Between two screen-off invocations of `monitor_loop` there is a tick
whose probe reported the device connected. -/
lemma appFired_connected_between (seed : Bool) (probe : Nat → Bool) (i j : Nat)
    (hij : i < j) (hi : appFired seed probe i = true)
    (hj : appFired seed probe j = true) :
    ∃ k, i < k ∧ k < j ∧ probe k = true := by
  by_contra hno
  push_neg at hno
  have hC : OUT_OF_RANGE_COUNT = 2 := rfl
  have h2j := (appFired_iff seed probe j).mp hj
  have hmiss : ∀ t, i + 1 ≤ t → t < j + 1 → (fun k => !probe k) t = true := by
    intro t h1 h2
    rcases Nat.lt_or_ge t j with hlt | hge
    · have hne := hno t (by omega) hlt
      cases hx : probe t
      · simp [hx]
      · exact absurd hx hne
    · have ht : t = j := by omega
      subst ht
      cases hx : probe t
      · simp [hx]
      · exfalso
        have hz : trailingMisses (fun k => !probe k) (t + 1) = 0 := by
          simp [trailingMisses, hx]
        omega
  have hrun := trailingMisses_run (fun k => !probe k) (i + 1) (j + 1) (by omega) hmiss
  have h2i := (appFired_iff seed probe i).mp hi
  omega

/-- Between two display-off invocations of the sleep_on_disconnect loop
there is a tick whose probe reported the device connected. -/
lemma sleepFired_connected_between (probe : Nat → Bool) (i j : Nat)
    (hij : i < j) (hi : sleepFired probe i = true)
    (hj : sleepFired probe j = true) :
    ∃ k, i < k ∧ k < j ∧ probe k = true := by
  by_contra hno
  push_neg at hno
  have hC : DISCONNECT_GRACE_CHECKS = 2 := rfl
  have h2j := (sleepFired_iff probe j).mp hj
  have hmiss : ∀ t, i + 1 ≤ t → t < j + 1 → (fun k => !probe k) t = true := by
    intro t h1 h2
    rcases Nat.lt_or_ge t j with hlt | hge
    · have hne := hno t (by omega) hlt
      cases hx : probe t
      · simp [hx]
      · exact absurd hx hne
    · have ht : t = j := by omega
      subst ht
      cases hx : probe t
      · simp [hx]
      · exfalso
        have hz : trailingMisses (fun k => !probe k) (t + 1) = 0 := by
          simp [trailingMisses, hx]
        omega
  have hrun := trailingMisses_run (fun k => !probe k) (i + 1) (j + 1) (by omega) hmiss
  have h2i := (sleepFired_iff probe i).mp hi
  omega

/-- Relation between two probe outcomes that are equal except that an
`Absent` on the left may be replaced by a `ProbeError` on the right. -/
def absentToProbeError (x y : ProbeResult) : Prop :=
  x = y ∨ (x = .absent ∧ y = .probeError)

/-- Both scan adapters classify related probe outcomes identically. -/
lemma absentToProbeError_scan {x y : ProbeResult} (h : absentToProbeError x y) :
    enhanced_scan_result x = enhanced_scan_result y ∧
      is_device_connected x = is_device_connected y := by
  rcases h with rfl | ⟨rfl, rfl⟩ <;> simp [enhanced_scan_result, is_device_connected]

/-- Loop-head condition of `monitor_loop` (app.py line 119):
`while not stop_monitoring and monitor_state["is_monitoring"]`. -/
def monitor_loop_continues (stop_monitoring is_monitoring : Bool) : Bool :=
  !stop_monitoring && is_monitoring

/-! ### Claim theorems -/

/-- C10: Stopping monitoring via the stop endpoint sets `is_monitoring`
to false and clears `device_name` and `device_id`, but leaves the
`is_connected`, `last_check` and `screen_off` fields of the shared
monitor state unchanged, so a status snapshot taken after stop still
reports the last observed connection state and screen state. -/
theorem C10_api_stop_frame (s : MonitorState) :
    (api_stop s).is_monitoring = false ∧
    (api_stop s).device_name = none ∧
    (api_stop s).device_id = none ∧
    (api_stop s).is_connected = s.is_connected ∧
    (api_stop s).last_check = s.last_check ∧
    (api_stop s).screen_off = s.screen_off := by
  simp [api_stop]

/-- C8: `api_start` rejects an invalid configuration before any
monitoring begins: a request whose effective configuration violates the
spec's validity predicate (which can only happen through an empty or
missing target id, since the poll interval 3 s and thresholds 2/1 are
compile-time constants) is answered with the 400 error, and the monitor
thread is started exactly when the effective configuration is valid. -/
theorem C8_start_config_validation (s : MonitorState)
    (device_name device_id : Option String) (seed : Bool) :
    (specConfigValid (appEffectiveConfig device_id) = false →
      api_start s device_name device_id seed = .error "No device selected") ∧
    ((api_start s device_name device_id seed).isOk
      = specConfigValid (appEffectiveConfig device_id)) := by
  cases device_id with
  | none =>
    simp [api_start, specConfigValid, appEffectiveConfig, Except.isOk, Except.toBool]
  | some str =>
    by_cases hstr : str = ""
    · subst hstr
      simp [api_start, specConfigValid, appEffectiveConfig, Except.isOk, Except.toBool]
    · simp [api_start, specConfigValid, appEffectiveConfig, hstr, Except.isOk,
        Except.toBool, OUT_OF_RANGE_COUNT]

/-- Witness for C8 at a concrete invalid input: a request with no
device id is rejected. -/
theorem C8_witness :
    api_start monitorStateInit none none false = .error "No device selected" :=
  (C8_start_config_validation monitorStateInit none none false).1 (by decide)

/-- C7: The monitoring loop never terminates because of a probe failure
or an action failure: a scan that raises is handled exactly like an
Absent probe (the tick completes on the miss path), the tick result is
independent of the action adapter's outcome (its exception is
swallowed), every finite input list of raw outcomes is processed to the
end, and the loop-head condition depends only on the stop flag and the
monitoring flag. -/
theorem C7_loop_survives_failures :
    (∀ (s : PerfectState) (ra : PyResult Unit),
      perfectTickRaw s .raised ra = perfectTick s none) ∧
    (∀ (s : PerfectState) (rs : PyResult (Option Int)) (ra₁ ra₂ : PyResult Unit),
      perfectTickRaw s rs ra₁ = perfectTickRaw s rs ra₂) ∧
    (∀ (s : PerfectState) (inputs : List (PyResult (Option Int) × PyResult Unit)),
      (perfectFoldRaw s inputs).length = inputs.length) ∧
    (∀ stop_monitoring is_monitoring : Bool,
      monitor_loop_continues stop_monitoring is_monitoring = true ↔
        stop_monitoring = false ∧ is_monitoring = true) := by
  refine ⟨fun s ra => rfl, fun s rs ra₁ ra₂ => rfl, ?_, ?_⟩
  · intro s inputs
    induction inputs generalizing s with
    | nil => rfl
    | cons x rest ih =>
      obtain ⟨rs, ra⟩ := x
      simp [perfectFoldRaw, ih]
  · intro stop mon
    cases stop <;> cases mon <;> simp [monitor_loop_continues]

/-- C6 counterexample: under the timing model of app.py's loop, a stop
requested 0.1 s after a loop-head check waits out the full remaining
`time.sleep`: with a 60 s poll interval the stop latency is 59.9 s
(599 tenths), not below 1 s (10 tenths), and it changes to 2.9 s when
the poll interval is 3 s — the latency is not a small constant
independent of the poll interval. -/
theorem C6_counterexample :
    appStopLatency 600 1 = 599 ∧ appStopLatency 30 1 = 29 ∧ ¬ (599 < 10) := by
  refine ⟨by decide, by decide, by omega⟩

/-- C6 amended: the inter-tick wait of `monitor_loop` is a plain
`time.sleep`, not an interruptible wait, and the stop flag is read only
at the loop head; a stop request therefore takes effect only at the
next loop-head check.  Its latency is bounded by the poll interval
(strictly), and in the worst case — a stop requested one time unit into
the sleep — equals pollInterval - 1, so it grows with the poll interval
instead of being a small constant. -/
theorem C6_stop_latency_amended (p s : Nat) (hp : 2 ≤ p) :
    appStopLatency p s < p ∧ appStopLatency p 1 = p - 1 := by
  constructor
  · have h1 : p * ((s + p - 1) / p) ≤ s + p - 1 := by
      calc p * ((s + p - 1) / p) = (s + p - 1) / p * p := Nat.mul_comm _ _
      _ ≤ s + p - 1 := Nat.div_mul_le_self _ _
    unfold appStopLatency appLoopExitTime
    generalize p * ((s + p - 1) / p) = e at h1 ⊢
    omega
  · show appLoopExitTime p 1 - 1 = p - 1
    unfold appLoopExitTime
    have h2 : 1 + p - 1 = p := by omega
    rw [h2, Nat.div_self (by omega : 0 < p), Nat.mul_one]

/-- Witness for C6 amended at pollInterval = 60 s. -/
theorem C6_witness : appStopLatency 600 1 = 600 - 1 :=
  (C6_stop_latency_amended 600 1 (by omega)).2

/-- C4 counterexample: at the point where `monitor_device` enters its
loop both counters are zero (lines 224–225), so "exactly one of the two
counters is nonzero at every point while the loop runs" fails at the
loop's start. -/
theorem C4_counterexample :
    perfectInit.consecutive_misses = 0 ∧ perfectInit.consecutive_hits = 0 ∧
    ¬ Xor' (perfectInit.consecutive_misses ≠ 0) (perfectInit.consecutive_hits ≠ 0) := by
  refine ⟨rfl, rfl, ?_⟩
  simp [perfectInit, Xor']

/-- C4 amended: after every processed probe exactly one of the
consecutive-miss and consecutive-hit counters of `monitor_device` is
nonzero — a detection zeroes the misses and increments the hits, a miss
zeroes the hits and increments the misses; only before the first probe
result are both counters zero. -/
theorem C4_counters_amended :
    (∀ (probe : Nat → Option Int) (n : Nat),
      Xor' ((perfectRun probe (n + 1)).consecutive_misses ≠ 0)
           ((perfectRun probe (n + 1)).consecutive_hits ≠ 0)) ∧
    (∀ (s : PerfectState) (rssi : Int),
      (perfectTick s (some rssi)).1.consecutive_misses = 0 ∧
      (perfectTick s (some rssi)).1.consecutive_hits = s.consecutive_hits + 1) ∧
    (∀ s : PerfectState,
      (perfectTick s none).1.consecutive_hits = 0 ∧
      (perfectTick s none).1.consecutive_misses = s.consecutive_misses + 1) := by
  refine ⟨?_, ?_, ?_⟩
  · intro probe n
    show Xor' ((perfectTick (perfectRun probe n) (probe n)).1.consecutive_misses ≠ 0)
              ((perfectTick (perfectRun probe n) (probe n)).1.consecutive_hits ≠ 0)
    cases hp : probe n with
    | some rssi =>
      rw [perfectTick_some]
      split_ifs <;> simp [Xor']
    | none =>
      rw [perfectTick_none]
      split_ifs <;> simp [Xor']
  · intro s rssi
    rw [perfectTick_some]
    split_ifs <;> simp
  · intro s
    rw [perfectTick_none]
    split_ifs <;> simp

/-- C2 counterexample: `PerfectBlueLock.__init__` performs no seed
probe — `device_in_range` starts `False` regardless of the device — and
with the device present at every tick the wake action fires at the
second tick, contradicting both "initializes the phase from the seed
probe's result" and "an initially Present device does not trigger the
present/wake action". -/
theorem C2_counterexample :
    perfectPhase perfectInit = Phase.OutOfRange ∧
    perfectAction alwaysPresent 1 = some SysAction.wake := by
  exact ⟨rfl, by decide⟩

/-- C2 amended: bluelock_perfect performs no seed probe: the phase is
initialized to OutOfRange unconditionally and an initially Present
device fires the wake action at the tick where consecutive hits reach 2
(and no action at the first tick).  app.py's `api_start` does perform
one probe, but uses it only to seed `is_connected`; `screen_off` starts
`False` regardless of the probe's result. -/
theorem C2_no_seed_probe_amended :
    (perfectInit.device_in_range = false ∧ perfectInit.consecutive_misses = 0 ∧
      perfectInit.consecutive_hits = 0) ∧
    (∀ (probe : Nat → Option Int) (r₀ r₁ : Int),
      probe 0 = some r₀ → probe 1 = some r₁ →
        perfectAction probe 0 = none ∧ perfectAction probe 1 = some SysAction.wake) ∧
    (∀ (s : MonitorState) (name id : Option String) (seed : Bool)
        (s' : MonitorState) (started : Bool),
      api_start s name id seed = .ok (s', started) →
        s'.screen_off = false ∧ s'.is_connected = seed) := by
  refine ⟨⟨rfl, rfl, rfl⟩, ?_, ?_⟩
  · intro probe r₀ r₁ h0 h1
    constructor
    · show (perfectTick (perfectRunFrom perfectInit probe 0) (probe 0)).2 = none
      rw [h0]
      rfl
    · show (perfectTick (perfectRunFrom perfectInit probe 1) (probe 1)).2 = some SysAction.wake
      have hs : perfectRunFrom perfectInit probe 1
          = (perfectTick perfectInit (probe 0)).1 := rfl
      rw [h1, hs, h0]
      rfl
  · intro s name id seed s' started h
    unfold api_start at h
    split_ifs at h with hc
    obtain ⟨h1, h2⟩ := h
    exact ⟨rfl, rfl⟩

/-- Witness for C2 amended at the all-present probe sequence. -/
theorem C2_witness : perfectAction alwaysPresent 0 = none :=
  (C2_no_seed_probe_amended.2.1 alwaysPresent (-50) (-50) rfl rfl).1

/-- C1 counterexample: on app.py's `monitor_loop`, probes
[Present, Absent, Absent, Present] yield phases
[InRange, InRange, OutOfRange, InRange] — the fourth tick flips back to
InRange because a single connected probe clears `screen_off`
unconditionally, contradicting the claimed trajectory
[InRange, InRange, OutOfRange, OutOfRange]. -/
theorem C1_counterexample :
    appPhases true exProbe 4 ≠
      [Phase.InRange, Phase.InRange, Phase.OutOfRange, Phase.OutOfRange] := by
  decide

/-- C1 amended: in both app.py and bluelock_perfect the phase flips
from InRange to OutOfRange exactly at the tick where the unbroken run
of consecutive misses first reaches the miss threshold (2 in both), and
at no earlier tick.  On probes [Present, Absent, Absent, Present] from
an in-range state, bluelock_perfect yields phases
[InRange, InRange, OutOfRange, OutOfRange] with the lock action
dispatched once, at the third tick only; app.py yields
[InRange, InRange, OutOfRange, InRange] — a single Present flips it
back — with the screen-off action fired once, at the third tick only. -/
theorem C1_debounce_flip_amended :
    (∀ (seed : Bool) (probe : Nat → Bool) (n : Nat),
      ((appRun seed probe n).screen_off = false ∧
        (appRun seed probe (n + 1)).screen_off = true) ↔
        trailingMisses (fun k => !probe k) (n + 1) = OUT_OF_RANGE_COUNT) ∧
    (∀ (probe : Nat → Option Int) (n : Nat),
      ((perfectRun probe n).device_in_range = true ∧
        (perfectRun probe (n + 1)).device_in_range = false) ↔
        ((perfectRun probe n).device_in_range = true ∧
          trailingMisses (fun k => (probe k).isNone) (n + 1) = required_misses)) ∧
    (appPhases true exProbe 4 =
        [Phase.InRange, Phase.InRange, Phase.OutOfRange, Phase.InRange] ∧
      appFiredList true exProbe 4 = [false, false, true, false]) ∧
    (perfectPhasesFrom inRangeStart exScan 4 =
        [Phase.InRange, Phase.InRange, Phase.OutOfRange, Phase.OutOfRange] ∧
      perfectActionsFrom inRangeStart exScan 4 =
        [none, none, some SysAction.lock, none]) := by
  refine ⟨?_, ?_, by exact ⟨by decide, by decide⟩, by exact ⟨by decide, by decide⟩⟩
  · intro seed probe n
    have hC : OUT_OF_RANGE_COUNT = 2 := rfl
    have h0 := appRun_screen_off seed probe n
    have h1 := appRun_screen_off seed probe (n + 1)
    have hstep : trailingMisses (fun k => !probe k) (n + 1) = 0 ∨
        trailingMisses (fun k => !probe k) (n + 1)
          = trailingMisses (fun k => !probe k) n + 1 := by
      cases hm : probe n
      · right
        simp [trailingMisses, hm]
      · left
        simp [trailingMisses, hm]
    constructor
    · rintro ⟨ha, hb⟩
      have hb' := h1.mp hb
      have ha' : ¬ OUT_OF_RANGE_COUNT ≤ trailingMisses (fun k => !probe k) n := by
        intro hcon
        rw [← h0] at hcon
        rw [ha] at hcon
        cases hcon
      rcases hstep with hz | hsucc <;> omega
    · intro ht
      have hb : (appRun seed probe (n + 1)).screen_off = true := h1.mpr (by omega)
      have ha : (appRun seed probe n).screen_off = false := by
        rcases hstep with hz | hsucc
        · omega
        · have hlt : ¬ OUT_OF_RANGE_COUNT ≤ trailingMisses (fun k => !probe k) n := by
            omega
          cases hx : (appRun seed probe n).screen_off
          · rfl
          · exact absurd (h0.mp hx) hlt
      exact ⟨ha, hb⟩
  · intro probe n
    have hR : required_misses = 2 := rfl
    have hmc := perfectRun_miss_count probe n
    have hlt := perfectRun_inrange_lt probe n
    constructor
    · rintro ⟨ha, hb⟩
      refine ⟨ha, ?_⟩
      cases hp : probe n with
      | some rssi =>
        exfalso
        have hkeep : (perfectRun probe (n + 1)).device_in_range = true := by
          show (perfectTick (perfectRun probe n) (probe n)).1.device_in_range = true
          rw [hp, perfectTick_some]
          split_ifs with hcond
          · rfl
          · exact ha
        rw [hkeep] at hb
        cases hb
      | none =>
        have htr : trailingMisses (fun k => (probe k).isNone) (n + 1)
            = trailingMisses (fun k => (probe k).isNone) n + 1 := by
          simp [trailingMisses, hp]
        have hbranch : required_misses ≤ (perfectRun probe n).consecutive_misses + 1 := by
          by_contra hno
          have hkeep : (perfectRun probe (n + 1)).device_in_range = true := by
            show (perfectTick (perfectRun probe n) (probe n)).1.device_in_range = true
            rw [hp, perfectTick_none]
            rw [if_neg (fun hcond => hno hcond.2)]
            exact ha
          rw [hkeep] at hb
          cases hb
        have hlt' := hlt ha
        omega
    · rintro ⟨ha, htr⟩
      refine ⟨ha, ?_⟩
      cases hp : probe n with
      | some rssi =>
        exfalso
        have hz : trailingMisses (fun k => (probe k).isNone) (n + 1) = 0 := by
          simp [trailingMisses, hp]
        omega
      | none =>
        have htr' : trailingMisses (fun k => (probe k).isNone) (n + 1)
            = trailingMisses (fun k => (probe k).isNone) n + 1 := by
          simp [trailingMisses, hp]
        show (perfectTick (perfectRun probe n) (probe n)).1.device_in_range = false
        rw [hp, perfectTick_none]
        rw [if_pos ⟨ha, by omega⟩]

/-- C3 counterexample: app.py has no present/wake action at all, so on
probes [Absent, Absent, Present, Absent, Absent] the invocation
sequence of `monitor_loop` is two consecutive screen-off (lock-side)
invocations with no intervening opposite-action invocation. -/
theorem C3_counterexample :
    appInvocations true exProbe2 5 = [SysAction.lock, SysAction.lock] := by
  decide

/-- C3 amended: in bluelock_perfect, which dispatches both actions, no
two invocations of the same action happen without an intervening
invocation of the opposite action.  In app.py (and likewise
sleep_on_disconnect), only the screen-off action exists, so the same
action can recur; what separates two of its invocations is not an
opposite action but a tick that observed the device connected. -/
theorem C3_alternation_amended :
    (∀ (probe : Nat → Option Int) (i j : Nat) (a : SysAction),
      i < j → perfectAction probe i = some a → perfectAction probe j = some a →
        ∃ k, i < k ∧ k < j ∧ perfectAction probe k = some a.opposite) ∧
    (∀ (seed : Bool) (probe : Nat → Bool) (i j : Nat),
      i < j → appFired seed probe i = true → appFired seed probe j = true →
        ∃ k, i < k ∧ k < j ∧ probe k = true) := by
  constructor
  · intro probe i j a hij hi hj
    cases a with
    | lock =>
      have hpost := (perfectAction_lock_pre perfectInit probe i hi).2
      have hpre := (perfectAction_lock_pre perfectInit probe j hj).1
      obtain ⟨k, hk1, hk2, hk3⟩ :=
        perfect_wake_between perfectInit probe j (i + 1) (by omega) hpost hpre
      exact ⟨k, by omega, hk2, hk3⟩
    | wake =>
      have hpost := (perfectAction_wake_pre perfectInit probe i hi).2
      have hpre := (perfectAction_wake_pre perfectInit probe j hj).1
      obtain ⟨k, hk1, hk2, hk3⟩ :=
        perfect_lock_between perfectInit probe j (i + 1) (by omega) hpost hpre
      exact ⟨k, by omega, hk2, hk3⟩
  · exact fun seed probe i j hij hi hj =>
      appFired_connected_between seed probe i j hij hi hj

/-- Witness for C3 amended: on two hit-run / miss-run alternations the
lock actions at ticks 3 and 7 have a wake in between. -/
theorem C3_witness :
    ∃ k, 3 < k ∧ k < 7 ∧ perfectAction exScan2 k
      = some (SysAction.opposite SysAction.lock) :=
  C3_alternation_amended.1 exScan2 3 7 SysAction.lock (by omega)
    (by decide) (by decide)

/-- C9: Between any two invocations of the screen-off/lock action there
is a tick whose probe reported the device connected: the `screen_off`
guard of app.py and the `has_slept` guard of sleep_on_disconnect are
set when the action fires and cleared only by a connected tick, so the
action fires at most once per unbroken run of misses. -/
theorem C9_guard_between_fires :
    (∀ (seed : Bool) (probe : Nat → Bool) (i j : Nat),
      i < j → appFired seed probe i = true → appFired seed probe j = true →
        ∃ k, i < k ∧ k < j ∧ probe k = true) ∧
    (∀ (probe : Nat → Bool) (i j : Nat),
      i < j → sleepFired probe i = true → sleepFired probe j = true →
        ∃ k, i < k ∧ k < j ∧ probe k = true) :=
  ⟨fun seed probe i j hij hi hj =>
      appFired_connected_between seed probe i j hij hi hj,
    fun probe i j hij hi hj =>
      sleepFired_connected_between probe i j hij hi hj⟩

/-- Witness for C9 at probes [Absent, Absent, Present, Absent, Absent]:
the fires at ticks 1 and 4 have the connected tick 2 in between. -/
theorem C9_witness : ∃ k, 1 < k ∧ k < 4 ∧ exProbe2 k = true :=
  C9_guard_between_fires.1 true exProbe2 1 4 (by omega) (by decide) (by decide)


/-- Related probe lists map to the same `enhanced_scan` values. -/
lemma absentToProbeError_scan_map (l₁ l₂ : List ProbeResult)
    (h : List.Forall₂ absentToProbeError l₁ l₂) :
    l₁.map enhanced_scan_result = l₂.map enhanced_scan_result := by
  induction h with
  | nil => rfl
  | cons hxy htail ih =>
    simp only [List.map_cons, (absentToProbeError_scan hxy).1, ih]

/-- Related probe lists map to the same `is_device_connected` values. -/
lemma absentToProbeError_conn_map (l₁ l₂ : List ProbeResult)
    (h : List.Forall₂ absentToProbeError l₁ l₂) :
    l₁.map is_device_connected = l₂.map is_device_connected := by
  induction h with
  | nil => rfl
  | cons hxy htail ih =>
    simp only [List.map_cons, (absentToProbeError_scan hxy).2, ih]

/-- C5: Replacing any Absent result in an input probe sequence with a
ProbeError result yields an identical state trajectory in both
bluelock_perfect (whose `enhanced_scan` returns None both for a device
not found and for a scan that raised) and sleep_on_disconnect (whose
`is_device_connected` returns False both for a non-"OK" status and for
a failing PowerShell call): the debounce logic treats probe failure and
device absence identically as a miss. -/
theorem C5_probe_error_equals_absent (l₁ l₂ : List ProbeResult)
    (h : List.Forall₂ absentToProbeError l₁ l₂) :
    perfectStates l₁ = perfectStates l₂ ∧ sleepStates l₁ = sleepStates l₂ := by
  have hmap1 := absentToProbeError_scan_map l₁ l₂ h
  have hmap2 := absentToProbeError_conn_map l₁ l₂ h
  constructor
  · unfold perfectStates
    have hmap : l₁.map (fun p => ((PyResult.ok (enhanced_scan_result p) :
          PyResult (Option Int)), (PyResult.ok () : PyResult Unit))) =
        l₂.map (fun p => ((PyResult.ok (enhanced_scan_result p) :
          PyResult (Option Int)), (PyResult.ok () : PyResult Unit))) := by
      have hc := congrArg
        (List.map (fun r => ((PyResult.ok r : PyResult (Option Int)),
          (PyResult.ok () : PyResult Unit)))) hmap1
      simpa [List.map_map, Function.comp] using hc
    rw [hmap]
  · unfold sleepStates
    rw [hmap2]

/-- Witness for C5: replacing the Absent at the head of
[Absent, Present] with ProbeError leaves the bluelock_perfect
trajectory unchanged. -/
theorem C5_witness :
    perfectStates [ProbeResult.absent, ProbeResult.present (-60)] =
      perfectStates [ProbeResult.probeError, ProbeResult.present (-60)] :=
  (C5_probe_error_equals_absent _ _
    (.cons (Or.inr ⟨rfl, rfl⟩) (.cons (Or.inl rfl) .nil))).1
